import Mathlib

/-!
Verification development for the pipeline assembly core of the shaka media
packager (`packager/packager.cc`).  The C++ functions are shallowly embedded
as executable Lean definitions.  External collaborators that live outside the
translated file (container-name tables, the segment-template grammar checker,
muxer/demuxer factories, file system, notifiers) are passed in as explicit
oracle parameters, so every theorem quantifies over their behaviour.
-/

set_option maxHeartbeats 1000000

/-- Media container enum (`MediaContainerName`), restricted to the
constructors referenced by `packager.cc`. -/
inductive MediaContainerName where
  | CONTAINER_UNKNOWN
  | CONTAINER_AAC
  | CONTAINER_AC3
  | CONTAINER_EAC3
  | CONTAINER_MOV
  | CONTAINER_MPEG2TS
  | CONTAINER_TTML
  | CONTAINER_WEBVTT
deriving DecidableEq, Repr

/-- Error codes of the `shaka::Status` type used by `packager.cc`. -/
inductive ErrorCode where
  | OK
  | CANCELLED
  | UNKNOWN
  | INVALID_ARGUMENT
  | UNIMPLEMENTED
  | FILE_FAILURE
  | PARSER_FAILURE
deriving DecidableEq, Repr

/-- `shaka::Status`: an error code together with a message. -/
structure Status where
  error_code : ErrorCode
  error_message : String
deriving DecidableEq, Repr

/-- `Status::OK`. -/
def Status.ok : Status := ⟨ErrorCode.OK, ""⟩

/-- `Status::ok()`: true iff the error code is `OK`. -/
def Status.isOk (s : Status) : Bool := s.error_code = ErrorCode.OK

/-- Shorthand for an `INVALID_ARGUMENT` status (apostrophes in the C++
messages are dropped). -/
def Status.invalid (msg : String) : Status := ⟨ErrorCode.INVALID_ARGUMENT, msg⟩

/-- `shaka::StreamDescriptor` (the fields consumed by `packager.cc`). -/
structure StreamDescriptor where
  input : String
  stream_selector : String
  output : String
  segment_template : String
  output_format : String
  language : String
  bandwidth : Nat
  skip_encryption : Bool
  drm_label : String
  trick_play_factor : Nat
  hls_group_id : String
  hls_name : String
  hls_playlist_name : String
  hls_iframe_playlist_name : String
deriving DecidableEq, Repr

/-- A descriptor with every field empty/zero, used to build concrete
descriptors by structure update. -/
def StreamDescriptor.default : StreamDescriptor :=
  ⟨"", "", "", "", "", "", 0, false, "", 0, "", "", "", ""⟩

/-- `shaka::KeyProvider`. -/
inductive KeyProvider where
  | kNone
  | kRawKey
  | kWidevine
  | kPlayReady
deriving DecidableEq, Repr

/-- `shaka::HlsPlaylistType`. -/
inductive HlsPlaylistType where
  | kVod
  | kEvent
  | kLive
deriving DecidableEq, Repr

/-- Stream type tags of `EncryptionParams::EncryptedStreamAttributes`
(the C++ enumerators are `kUnknown`, `kAudio`, `kVideo`; renamed here with a
`Stream` suffix). -/
inductive StreamType where
  | kUnknownStream
  | kAudioStream
  | kVideoStream
deriving DecidableEq, Repr

/-- `EncryptionParams::EncryptedStreamAttributes`: the stream type, and for
video streams the frame dimensions (C++ `int`). -/
structure EncryptedStreamAttributes where
  stream_type : StreamType
  width : Int
  height : Int

/-- `shaka::EncryptionParams` (fields consumed by `packager.cc`):
the key provider, the requested protection scheme (a FourCC stored in a
`uint32_t`, modelled as `Nat`), and the optional stream label callback. -/
structure EncryptionParams where
  key_provider : KeyProvider
  protection_scheme : Nat
  stream_label_func : Option (EncryptedStreamAttributes → String)

/-- `shaka::DecryptionParams` (field consumed by `packager.cc`). -/
structure DecryptionParams where
  key_provider : KeyProvider
deriving DecidableEq, Repr

/-- `shaka::ChunkingParams` (fields consumed by `packager.cc`). -/
structure ChunkingParams where
  segment_duration_in_seconds : Float
  segment_sap_aligned : Bool
  subsegment_sap_aligned : Bool

/-- `shaka::HlsParams` (fields consumed by `packager.cc`). -/
structure HlsParams where
  playlist_type : HlsPlaylistType
  master_playlist_output : String
  default_language : String
deriving DecidableEq, Repr

/-- `shaka::MpdParams` (fields consumed by `packager.cc`). -/
structure MpdParams where
  mpd_output : String
  default_language : String
deriving DecidableEq, Repr

/-- `shaka::AdCueGeneratorParams`: the list of cue points (each a time in
seconds; only emptiness is consulted during assembly). -/
structure AdCueGeneratorParams where
  cue_points : List Float

/-- `shaka::BufferCallbackParams`: presence of the read and write callbacks
(`std::function` objects; only their presence is branched on). -/
structure BufferCallbackParams where
  read_func : Bool
  write_func : Bool
deriving DecidableEq, Repr

/-- `shaka::TestParams` (fields consumed by `packager.cc`). -/
structure TestParams where
  dump_stream_info : Bool
  inject_fake_clock : Bool
  injected_library_version : String
deriving DecidableEq, Repr

/-- `shaka::PackagingParams` (fields consumed by `packager.cc`;
`mp4_output_params` is carried opaquely by the muxer options and omitted). -/
structure PackagingParams where
  temp_dir : String
  chunking_params : ChunkingParams
  encryption_params : EncryptionParams
  decryption_params : DecryptionParams
  hls_params : HlsParams
  mpd_params : MpdParams
  ad_cue_generator_params : AdCueGeneratorParams
  buffer_callback_params : BufferCallbackParams
  output_media_info : Bool
  test_params : TestParams

/-- `GetOutputFormat` (packager.cc:125-168).  The container-name tables
`DetermineContainerFromFormatName` and `DetermineContainerFromFileName` live
outside this file and are passed in as the oracles `fmtName` and `fileName`.
`base::Optional` is modelled by `Option`; an optional is engaged whenever its
source string is non-empty, even when the derived container is `UNKNOWN`. -/
def GetOutputFormat (fmtName fileName : String → MediaContainerName)
    (descriptor : StreamDescriptor) : MediaContainerName :=
  if descriptor.output_format ≠ "" then
    fmtName descriptor.output_format
  else
    let format_from_output : Option MediaContainerName :=
      if descriptor.output ≠ "" then some (fileName descriptor.output) else none
    let format_from_segment : Option MediaContainerName :=
      if descriptor.segment_template ≠ "" then
        some (fileName descriptor.segment_template)
      else none
    match format_from_output, format_from_segment with
    | some fo, some fs =>
        if fo ≠ fs then MediaContainerName.CONTAINER_UNKNOWN else fo
    | some fo, none => fo
    | none, some fs => fs
    | none, none => MediaContainerName.CONTAINER_UNKNOWN

/-- `ValidateStreamDescriptor` (packager.cc:170-251).  `vst` is the external
`ValidateSegmentTemplate` grammar checker (muxer_util), passed as an oracle. -/
def ValidateStreamDescriptor (fmtName fileName : String → MediaContainerName)
    (vst : String → Status) (dump_stream_info : Bool)
    (stream : StreamDescriptor) : Status :=
  if stream.input = "" then
    Status.invalid "Stream input not specified."
  else if dump_stream_info ∧ stream.output = "" ∧ stream.segment_template = "" then
    Status.ok
  else if stream.output = "" ∧ stream.segment_template = "" then
    Status.invalid "Streams must specify output or segment template."
  else if stream.stream_selector = "" then
    Status.invalid "Stream stream_selector not specified."
  else
    let s1 := if stream.segment_template ≠ "" then vst stream.segment_template
              else Status.ok
    if ¬ s1.isOk then s1
    else
      let s2 := if Char.ofNat 36 ∈ stream.output.data then vst stream.output
                else Status.ok
      if ¬ s2.isOk then s2
      else
        let output_format := GetOutputFormat fmtName fileName stream
        if output_format = MediaContainerName.CONTAINER_UNKNOWN then
          Status.invalid "Unsupported output format."
        else if output_format = MediaContainerName.CONTAINER_MPEG2TS then
          if stream.segment_template = "" then
            Status.invalid
              "Please specify segment_template. Single file TS output is not supported."
          else if stream.output ≠ "" then
            Status.invalid
              "All TS segments must be self-initializing. Stream descriptors output or init_segment are not allowed."
          else Status.ok
        else if output_format = MediaContainerName.CONTAINER_WEBVTT ∨
                output_format = MediaContainerName.CONTAINER_AAC ∨
                output_format = MediaContainerName.CONTAINER_AC3 ∨
                output_format = MediaContainerName.CONTAINER_EAC3 then
          if stream.segment_template ≠ "" ∧ stream.output ≠ "" then
            Status.invalid
              "Segmented WebVTT or PackedAudio output cannot have an init segment. Do not specify stream descriptors output or init_segment when using segment_template."
          else Status.ok
        else
          if stream.segment_template ≠ "" ∧ stream.output = "" then
            Status.invalid
              "Please specify init_segment. All non-TS multi-segment content must provide an init segment."
          else Status.ok

/-- Per-descriptor loop body of `ValidateParams` (packager.cc:271-296): the
profile-consistency check followed by `ValidateStreamDescriptor`, with
short-circuiting.  The UDP/VOD case only logs a warning. -/
def validateDescriptorsLoop (fmtName fileName : String → MediaContainerName)
    (vst : String → Status) (dump : Bool) (on_demand_dash_profile : Bool) :
    List StreamDescriptor → Status
  | [] => Status.ok
  | d :: rest =>
      if on_demand_dash_profile ≠ (d.segment_template = "") then
        Status.invalid
          "Inconsistent stream descriptor specification: segment_template should be specified for none or all stream descriptors."
      else
        let s := ValidateStreamDescriptor fmtName fileName vst dump d
        if ¬ s.isOk then s
        else validateDescriptorsLoop fmtName fileName vst dump on_demand_dash_profile rest

/-- `ValidateParams` (packager.cc:253-306). -/
def ValidateParams (fmtName fileName : String → MediaContainerName)
    (vst : String → Status) (packaging_params : PackagingParams)
    (stream_descriptors : List StreamDescriptor) : Status :=
  if ¬ packaging_params.chunking_params.segment_sap_aligned ∧
      packaging_params.chunking_params.subsegment_sap_aligned then
    Status.invalid
      "Setting segment_sap_aligned to false but subsegment_sap_aligned to true is not allowed."
  else
    match stream_descriptors with
    | [] => Status.invalid "Stream descriptors cannot be empty."
    | first :: _ =>
        let on_demand_dash_profile := first.segment_template = ""
        let s := validateDescriptorsLoop fmtName fileName vst
          packaging_params.test_params.dump_stream_info on_demand_dash_profile
          stream_descriptors
        if ¬ s.isOk then s
        else if packaging_params.output_media_info ∧ ¬ on_demand_dash_profile then
          Status.mk ErrorCode.UNIMPLEMENTED
            "output_media_info is only supported for on-demand profile (not using segment_template)."
        else Status.ok

/-- `StreamDescriptorCompareFn` (packager.cc:308-325). -/
def StreamDescriptorCompareFn (a b : StreamDescriptor) : Bool :=
  if a.input = b.input then
    if a.stream_selector = b.stream_selector then
      if a.trick_play_factor = 0 ∨ b.trick_play_factor = 0 then
        decide (a.trick_play_factor = 0)
      else
        decide (b.trick_play_factor < a.trick_play_factor)
    else
      decide (a.stream_selector < b.stream_selector)
  else
    decide (a.input < b.input)

/-- The `(input, stream_selector)` pair of a descriptor, the key under which
demuxers and replicators are shared. -/
def stPair (d : StreamDescriptor) : String × String := (d.input, d.stream_selector)

/-- Lexicographic order on `(input, stream_selector)` pairs, using the string
order that `StreamDescriptorCompareFn` compares with. -/
def pairLe (p q : String × String) : Prop :=
  p.1 < q.1 ∨ (p.1 = q.1 ∧ p.2 ≤ q.2)

instance (p q : String × String) : Decidable (pairLe p q) :=
  inferInstanceAs (Decidable (p.1 < q.1 ∨ (p.1 = q.1 ∧ p.2 ≤ q.2)))

/-- A list is sorted for `std::sort` with `StreamDescriptorCompareFn` when no
adjacent pair is inverted. -/
def SortedAV (l : List StreamDescriptor) : Prop :=
  List.Chain' (fun a b => StreamDescriptorCompareFn b a = false) l

instance (l : List StreamDescriptor) : Decidable (SortedAV l) :=
  inferInstanceAs
    (Decidable (List.Chain' (fun a b => StreamDescriptorCompareFn b a = false) l))

/-- `Packager::DefaultStreamLabelFunction` (packager.cc:941-962). -/
def DefaultStreamLabelFunction (max_sd_pixels max_hd_pixels max_uhd1_pixels : Int)
    (stream_attributes : EncryptedStreamAttributes) : String :=
  if stream_attributes.stream_type = StreamType.kAudioStream then "AUDIO"
  else if stream_attributes.stream_type = StreamType.kVideoStream then
    let pixels := stream_attributes.width * stream_attributes.height
    if pixels ≤ max_sd_pixels then "SD"
    else if pixels ≤ max_hd_pixels then "HD"
    else if pixels ≤ max_uhd1_pixels then "UHD1"
    else "UHD2"
  else ""

/-- `kAppleSampleAesProtectionScheme` (declared in crypto_params.h, outside
this file): a fixed FourCC constant; the concrete numeral stands in for the
FourCC value and no theorem depends on it. -/
def kAppleSampleAesProtectionScheme : Nat := 0x61617065

/-- The state of the `EncryptionHandler` built by `CreateEncryptionHandler`:
the (possibly rewritten) encryption parameters it was constructed with. -/
structure EncryptionHandler where
  encryption_params : EncryptionParams

/-- `CreateEncryptionHandler` (packager.cc:391-433).  `key_source` is the
nullable `KeySource*`, modelled by its presence.  Returns `none` exactly when
the C++ function returns `nullptr`. -/
def CreateEncryptionHandler (fmtName fileName : String → MediaContainerName)
    (packaging_params : PackagingParams) (stream : StreamDescriptor)
    (key_source : Bool) : Option EncryptionHandler :=
  if stream.skip_encryption then none
  else if ¬ key_source then none
  else
    let encryption_params := packaging_params.encryption_params
    let encryption_params :=
      if GetOutputFormat fmtName fileName stream = MediaContainerName.CONTAINER_MPEG2TS ∨
         GetOutputFormat fmtName fileName stream = MediaContainerName.CONTAINER_AAC ∨
         GetOutputFormat fmtName fileName stream = MediaContainerName.CONTAINER_AC3 ∨
         GetOutputFormat fmtName fileName stream = MediaContainerName.CONTAINER_EAC3 then
        { encryption_params with protection_scheme := kAppleSampleAesProtectionScheme }
      else encryption_params
    let encryption_params :=
      if stream.drm_label ≠ "" then
        { encryption_params with
            stream_label_func := some (fun _ => stream.drm_label) }
      else if encryption_params.stream_label_func.isNone then
        { encryption_params with
            stream_label_func :=
              some (DefaultStreamLabelFunction (768 * 576) (1920 * 1080) (4096 * 2160)) }
      else encryption_params
    some ⟨encryption_params⟩

/-- Oracles for the external collaborators consulted while building text
jobs: the two container tables, `FileReader::Open`, `File::Copy`,
`DetermineTextFileCodec` (content sniffing), and whether the MPD notifier
accepts a new container. -/
structure TextOracles where
  fmtName : String → MediaContainerName
  fileName : String → MediaContainerName
  openFile : String → Status
  copyFile : String → String → Bool
  textCodec : String → Option String
  notifyNewContainerOk : Bool

/-- Status of `CreateHlsTextJob` (packager.cc:443-483): guards on a missing
segment template, then opens the input; the handler chain itself always
connects. -/
def CreateHlsTextJobStatus (o : TextOracles) (stream : StreamDescriptor) : Status :=
  if stream.segment_template = "" then
    Status.invalid ("Cannot output text (" ++ stream.input ++ ") to HLS with no segment template")
  else
    let s := o.openFile stream.input
    if ¬ s.isOk then s else Status.ok

/-- Status of `CreateWebVttToMp4TextJob` (packager.cc:485-517): opens the
input, then chains parser, padder, optional cue aligner, chunker,
text-to-mp4 and muxer. -/
def CreateWebVttToMp4TextJobStatus (o : TextOracles) (stream : StreamDescriptor) : Status :=
  let s := o.openFile stream.input
  if ¬ s.isOk then s else Status.ok

/-- One iteration of the `CreateTextJobs` loop (packager.cc:529-613).
`hls_listener` models `CreateHlsListener` returning non-null (an HLS notifier
exists); `mpd_notifier` models a non-null `MpdNotifier*`. -/
def CreateTextJobStream (o : TextOracles) (hls_listener mpd_notifier : Bool)
    (_output_media_info : Bool) (stream : StreamDescriptor) : Status :=
  let input_container := o.fileName stream.input
  let output_container := GetOutputFormat o.fmtName o.fileName stream
  if input_container ≠ MediaContainerName.CONTAINER_WEBVTT then
    Status.invalid ("Text output format is not support for " ++ stream.input)
  else if output_container = MediaContainerName.CONTAINER_MOV then
    CreateWebVttToMp4TextJobStatus o stream
  else
    if hls_listener ∧ (stream.segment_template = "" ∨ stream.output ≠ "") then
      Status.invalid
        "segment_template needs to be specified for HLS text output. Single file output is not supported yet."
    else if mpd_notifier ∧ stream.segment_template ≠ "" then
      Status.invalid "Cannot create text output for MPD with segment output."
    else
      let s := if hls_listener then CreateHlsTextJobStatus o stream else Status.ok
      if ¬ s.isOk then s
      else if stream.output ≠ "" then
        if ¬ o.copyFile stream.input stream.output then
          Status.mk ErrorCode.FILE_FAILURE
            ("Failed to copy the input file (" ++ stream.input ++ ") to output file (" ++ stream.output ++ ").")
        else if (o.textCodec stream.input).isNone then
          Status.invalid "Could not create media info for stream."
        else if mpd_notifier ∧ ¬ o.notifyNewContainerOk then
          Status.mk ErrorCode.PARSER_FAILURE ("Failed to process text file " ++ stream.input)
        else Status.ok
      else Status.ok

/-- `CreateTextJobs` (packager.cc:519-616): runs the per-stream body over the
text streams with short-circuiting. -/
def CreateTextJobs (o : TextOracles) (hls_listener mpd_notifier : Bool)
    (output_media_info : Bool) : List StreamDescriptor → Status
  | [] => Status.ok
  | stream :: rest =>
      let s := CreateTextJobStream o hls_listener mpd_notifier output_media_info stream
      if ¬ s.isOk then s
      else CreateTextJobs o hls_listener mpd_notifier output_media_info rest

/-- Oracles for the external collaborators of `CreateAudioVideoJobs`: the
container tables, whether `CreateDecryptionKeySource` yields a key source,
and whether `MuxerFactory::CreateMuxer` returns a non-null muxer. -/
structure AVOracles where
  fmtName : String → MediaContainerName
  fileName : String → MediaContainerName
  decryptionKeySourceOk : Bool
  muxerOk : MediaContainerName → StreamDescriptor → Bool

/-- Pass 1 of `CreateAudioVideoJobs` (packager.cc:635-650): one demuxer per
distinct input, registered in first-appearance order.  `CreateDemuxer`
(packager.cc:370-389) fails when a decryption key provider is configured but
no decryption key source can be built. -/
def avPass1 (o : AVOracles) (pp : PackagingParams) :
    List StreamDescriptor → List String → Status × List String
  | [], acc => (Status.ok, acc)
  | d :: rest, acc =>
      if d.input ∈ acc then avPass1 o pp rest acc
      else if pp.decryption_params.key_provider ≠ KeyProvider.kNone ∧
              ¬ o.decryptionKeySourceOk then
        (Status.invalid "Must define decryption key source when defining key provider", acc)
      else avPass1 o pp rest (acc ++ [d.input])

/-- The bookkeeping state of pass 2 of `CreateAudioVideoJobs`
(packager.cc:654-722).  A replicator node is identified by a fresh id
together with the `(input, stream_selector)` pair current when it was
created; `replicator` is the C++ local shared pointer (null initially),
`reps` the replicators constructed so far, `tails` the
muxer tails wired so far (descriptor, replicator the tail hangs off, and
the trick-play factor of the inserted `TrickPlayHandler`, 0 for none), and
`bindings` the `demuxer->SetHandler` calls (selector bound per input; the
flag records whether the chain starts with a cue aligner). -/
structure AVState where
  replicator : Option (Nat × String × String)
  prevInput : String
  prevSelector : String
  nextId : Nat
  reps : List (Nat × String × String)
  tails : List (StreamDescriptor × Option (Nat × String × String))
  bindings : List (String × String × Bool)
deriving DecidableEq, Repr

/-- The initial pass-2 state: null replicator, empty previous input and
selector strings. -/
def avInit : AVState := ⟨none, "", "", 0, [], [], []⟩

/-- Invariant maintained by pass 2 of `CreateAudioVideoJobs` over a sorted
descriptor list when every descriptor has an output: the pair of every
created replicator never exceeds the previous `(input, selector)` pair,
replicator pairs are pairwise distinct, every wired muxer tail hangs off a
created replicator whose pair is the pair of the tail's own descriptor, and
the current replicator (past the initial state) is a created replicator for
the previous pair. -/
def AVInv (s : AVState) : Prop :=
  (∀ r ∈ s.reps, pairLe r.2 (s.prevInput, s.prevSelector)) ∧
  (s.reps.map Prod.snd).Nodup ∧
  (∀ t ∈ s.tails, ∃ id, t.2 = some (id, t.1.input, t.1.stream_selector) ∧
      (id, t.1.input, t.1.stream_selector) ∈ s.reps) ∧
  ((s.reps = [] ∧ s.tails = [] ∧ s.replicator = none ∧
      s.prevInput = "" ∧ s.prevSelector = "") ∨
    (∃ r, s.replicator = some r ∧ r ∈ s.reps ∧
      r.2 = (s.prevInput, s.prevSelector)))

/-- Pass 2 of `CreateAudioVideoJobs` (packager.cc:654-722).  Note the C++
order of operations: `previous_input`/`previous_selector` are updated before
the no-output skip, so a skipped descriptor still changes what counts as a
new stream. -/
def avPass2 (o : AVOracles) (sync_points : Bool) (s : AVState) :
    List StreamDescriptor → Status × AVState
  | [] => (Status.ok, s)
  | stream :: rest =>
      let new_stream := stream.input ≠ s.prevInput ∨
        s.prevSelector ≠ stream.stream_selector
      let s1 : AVState :=
        { s with prevInput := stream.input, prevSelector := stream.stream_selector }
      if stream.output = "" ∧ stream.segment_template = "" then
        avPass2 o sync_points s1 rest
      else
        let s2 : AVState :=
          if new_stream then
            { s1 with
                replicator := some (s1.nextId, stream.input, stream.stream_selector),
                nextId := s1.nextId + 1,
                reps := s1.reps ++ [(s1.nextId, stream.input, stream.stream_selector)],
                bindings := s1.bindings ++
                  [(stream.input, stream.stream_selector, sync_points)] }
          else s1
        if o.muxerOk (GetOutputFormat o.fmtName o.fileName stream) stream then
          avPass2 o sync_points
            { s2 with
                tails := s2.tails ++ [(stream, s2.replicator)] }
            rest
        else
          (Status.invalid ("Failed to create muxer for " ++ stream.input ++ ":" ++
            stream.stream_selector), s2)

/-- `CreateAudioVideoJobs` (packager.cc:618-725): pass 1 builds the shared
demuxers, pass 2 wires replicators and muxer tails.  Returns the final
status, the demuxer inputs registered with the job manager, and the graph
bookkeeping state. -/
def CreateAudioVideoJobs (o : AVOracles) (pp : PackagingParams)
    (sync_points : Bool) (streams : List StreamDescriptor) :
    Status × List String × AVState :=
  let p1 := avPass1 o pp streams []
  if ¬ p1.1.isOk then (p1.1, p1.2, avInit)
  else
    let p2 := avPass2 o sync_points avInit streams
    (p2.1, p1.2, p2.2)

/-- `Packager::PackagerInternal` (packager.cc:774-781): presence of the
encryption key source and the notifiers, plus the stored callback params
(fake clock and job manager are always constructed). -/
structure PackagerInternal where
  encryption_key_source : Bool
  mpd_notifier : Bool
  hls_notifier : Bool
  buffer_callback_params : BufferCallbackParams
deriving DecidableEq, Repr

/-- `shaka::Packager`: the nullable internal state block. -/
structure Packager where
  internal : Option PackagerInternal
deriving DecidableEq, Repr

/-- Oracles for the external collaborators of `Packager::Initialize`: the
container tables and template checker feeding validation, key-source
construction, `MakeCallbackFileName`, the language helpers, MPD notifier
initialization, and the overall status of `CreateAllJobs` on the normalized
descriptors. -/
structure InitOracles where
  fmtName : String → MediaContainerName
  fileName : String → MediaContainerName
  vst : String → Status
  keySourceOk : Bool
  makeCallbackFileName : String → String
  langToISO_639_2 : String → String
  langToShortestForm : String → String
  mpdNotifierInitOk : Bool
  createAllJobsStatus : List StreamDescriptor → Status

/-- The per-descriptor copy rewriting of `Packager::Initialize`
(packager.cc:865-878): rewrite the file names through the buffer callbacks
when registered (the segment template is rewritten even when empty,
preserving the source behaviour). -/
def normalizeCopy (o : InitOracles) (bcp : BufferCallbackParams)
    (descriptor : StreamDescriptor) : StreamDescriptor :=
  let copy := descriptor
  let copy := if bcp.read_func then
      { copy with input := o.makeCallbackFileName descriptor.input }
    else copy
  if bcp.write_func then
    { copy with
        output := o.makeCallbackFileName descriptor.output,
        segment_template := o.makeCallbackFileName descriptor.segment_template }
  else copy

/-- The descriptor normalization loop of `Packager::Initialize`
(packager.cc:862-891): copy each descriptor, rewrite it through the buffer
callbacks, and canonicalize the language to ISO-639-2, rejecting `und`. -/
def normalizeStreams (o : InitOracles) (bcp : BufferCallbackParams) :
    List StreamDescriptor → Except Status (List StreamDescriptor)
  | [] => Except.ok []
  | descriptor :: rest =>
      let copy := normalizeCopy o bcp descriptor
      if copy.language ≠ "" then
        let lang := o.langToISO_639_2 descriptor.language
        if lang = "und" then
          Except.error (Status.invalid
            ("Unknown/invalid language specified: " ++ descriptor.language))
        else
          match normalizeStreams o bcp rest with
          | Except.error e => Except.error e
          | Except.ok tail => Except.ok ({ copy with language := lang } :: tail)
      else
        match normalizeStreams o bcp rest with
        | Except.error e => Except.error e
        | Except.ok tail => Except.ok (copy :: tail)

/-- The MPD parameter rewriting of `Packager::Initialize`
(packager.cc:819-834): apply the write callback to the MPD output name and
shorten the default language. -/
def initMpdParams (o : InitOracles) (packaging_params : PackagingParams) : MpdParams :=
  let mpd_params := packaging_params.mpd_params
  let mpd_params :=
    if packaging_params.buffer_callback_params.write_func then
      { mpd_params with mpd_output := o.makeCallbackFileName mpd_params.mpd_output }
    else mpd_params
  { mpd_params with default_language := o.langToShortestForm mpd_params.default_language }

/-- The HLS parameter rewriting of `Packager::Initialize`
(packager.cc:819-834): apply the write callback to the master playlist name
and shorten the default language. -/
def initHlsParams (o : InitOracles) (packaging_params : PackagingParams) : HlsParams :=
  let hls_params := packaging_params.hls_params
  let hls_params :=
    if packaging_params.buffer_callback_params.write_func then
      { hls_params with master_playlist_output :=
          o.makeCallbackFileName hls_params.master_playlist_output }
    else hls_params
  { hls_params with default_language := o.langToShortestForm hls_params.default_language }

/-- `Packager::Initialize` (packager.cc:787-910).  Returns the status
together with the packager state after the call; every early error leaves
the packager untouched and only the final step commits the new internal
state block. -/
def Packager.Initialize (o : InitOracles) (p : Packager)
    (packaging_params : PackagingParams)
    (stream_descriptors : List StreamDescriptor) : Status × Packager :=
  if p.internal.isSome then
    (Status.invalid "Already initialized.", p)
  else
    let vs := ValidateParams o.fmtName o.fileName o.vst packaging_params
      stream_descriptors
    if ¬ vs.isOk then (vs, p)
    else if packaging_params.encryption_params.key_provider ≠ KeyProvider.kNone ∧
        ¬ o.keySourceOk then
      (Status.invalid "Failed to create key source.", p)
    else if (initMpdParams o packaging_params).mpd_output ≠ "" ∧
        ¬ o.mpdNotifierInitOk then
      (Status.invalid "Failed to initialize MpdNotifier.", p)
    else
      match normalizeStreams o packaging_params.buffer_callback_params
          stream_descriptors with
      | Except.error e => (e, p)
      | Except.ok streams_for_jobs =>
          let s := o.createAllJobsStatus streams_for_jobs
          if ¬ s.isOk then (s, p)
          else
            (Status.ok,
             ⟨some
               ⟨packaging_params.encryption_params.key_provider ≠ KeyProvider.kNone,
                (initMpdParams o packaging_params).mpd_output ≠ "",
                (initHlsParams o packaging_params).master_playlist_output ≠ "",
                packaging_params.buffer_callback_params⟩⟩)

/-- Default packaging parameters used by concrete instances in witnesses. -/
def PackagingParams.default : PackagingParams :=
  ⟨"", ⟨0.0, true, false⟩, ⟨KeyProvider.kNone, 1, none⟩, ⟨KeyProvider.kNone⟩,
   ⟨HlsPlaylistType.kVod, "", ""⟩, ⟨"", ""⟩, ⟨[]⟩, ⟨false, false⟩, false,
   ⟨false, false, ""⟩⟩

/-- Concrete text-job oracles whose file-name sniffing reports an MP4 (MOV)
container for every input, used to exercise the non-WebVTT input branch. -/
def cxTextOracles : TextOracles :=
  ⟨fun _ => MediaContainerName.CONTAINER_UNKNOWN,
   fun _ => MediaContainerName.CONTAINER_MOV,
   fun _ => Status.ok, fun _ _ => true, fun _ => some "wvtt", true⟩

/-- Concrete text stream descriptor whose input is an MP4-embedded WebVTT
file. -/
def cxTextStream : StreamDescriptor :=
  { StreamDescriptor.default with
      input := "sub.mp4", stream_selector := "text", output := "out.vtt" }

/-- Concrete A/V oracles: every muxer can be built and no decryption is
configured. -/
def cxAVOracles : AVOracles :=
  ⟨fun _ => MediaContainerName.CONTAINER_MOV,
   fun _ => MediaContainerName.CONTAINER_MOV,
   true, fun _ _ => true⟩

/-- A main-track descriptor for input `v.mp4`, selector `video`, with no
output (legal only in dump-stream-info mode). -/
def cxMainNoOutput : StreamDescriptor :=
  { StreamDescriptor.default with input := "v.mp4", stream_selector := "video" }

/-- A trick-play descriptor (factor 2) for the same stream as
`cxMainNoOutput`, with an output file. -/
def cxTrickWithOutput : StreamDescriptor :=
  { StreamDescriptor.default with
      input := "v.mp4", stream_selector := "video", output := "t2.mp4",
      trick_play_factor := 2 }

/-- Container-name table oracle mapping the format name `mp2t` to MPEG-2
TS, everything else to unknown. -/
def cxFmtName : String → MediaContainerName :=
  fun s => if s = "mp2t" then MediaContainerName.CONTAINER_MPEG2TS
           else MediaContainerName.CONTAINER_UNKNOWN

/-- File-name container oracle reporting MPEG-2 TS for every name. -/
def cxFileNameTs : String → MediaContainerName :=
  fun _ => MediaContainerName.CONTAINER_MPEG2TS

/-- A dump-only descriptor with an explicit `mp2t` output format and neither
output nor segment template. -/
def cxDumpTs : StreamDescriptor :=
  { StreamDescriptor.default with
      input := "in.ts"
      output_format := "mp2t" }

/-- A valid TS live descriptor: segment template only, no output. -/
def cxLiveTs : StreamDescriptor :=
  { StreamDescriptor.default with
      input := "a.mp4"
      stream_selector := "0"
      segment_template := "seg$Number$.ts"
      output_format := "mp2t" }

/-- A main-track descriptor with an output, for input `v.mp4` and selector
`video`. -/
def cxMainOut : StreamDescriptor :=
  { StreamDescriptor.default with
      input := "v.mp4"
      stream_selector := "video"
      output := "m.mp4" }

/-- A factor-4 trick-play descriptor with an output, for the same stream as
`cxMainOut`. -/
def cxTrick4Out : StreamDescriptor :=
  { StreamDescriptor.default with
      input := "v.mp4"
      stream_selector := "video"
      output := "t4.mp4"
      trick_play_factor := 4 }

/-- Concrete `Initialize` oracles: every external step succeeds and names
pass through unchanged. -/
def cxInitOracles : InitOracles :=
  ⟨fun _ => MediaContainerName.CONTAINER_MOV,
   fun _ => MediaContainerName.CONTAINER_MOV,
   fun _ => Status.ok, true, id, id, id, true, fun _ => Status.ok⟩

/-- An already-initialized packager. -/
def cxPackager : Packager :=
  ⟨some ⟨false, false, false, ⟨false, false⟩⟩⟩

/-! ## Helper lemmas -/

theorem pairLe_refl (p : String × String) : pairLe p p :=
  Or.inr ⟨rfl, le_refl _⟩

theorem pairLe_trans {p q r : String × String} (h1 : pairLe p q) (h2 : pairLe q r) :
    pairLe p r := by
  rcases h1 with h1 | ⟨h1, h1'⟩ <;> rcases h2 with h2 | ⟨h2, h2'⟩
  · exact Or.inl (lt_trans h1 h2)
  · exact Or.inl (h2 ▸ h1)
  · exact Or.inl (h1 ▸ h2)
  · exact Or.inr ⟨h1.trans h2, le_trans h1' h2'⟩

theorem pairLe_antisymm {p q : String × String} (h1 : pairLe p q) (h2 : pairLe q p) :
    p = q := by
  rcases h1 with h1 | ⟨h1, h1'⟩ <;> rcases h2 with h2 | ⟨h2, h2'⟩
  · exact absurd (lt_trans h1 h2) (lt_irrefl _)
  · exact absurd h1 (h2 ▸ lt_irrefl _)
  · exact absurd h2 (h1 ▸ lt_irrefl _)
  · exact Prod.ext h1 (le_antisymm h1' h2')

/-- Characterization of a non-inverted pair under `StreamDescriptorCompareFn`:
`b` may follow `a` in a sorted list iff the `(input, selector)` pair does not
decrease and, within a shared pair, `b` is a trick-play variant whose factor
does not exceed the factor of a trick-play `a`. -/
theorem cmp_false_iff (a b : StreamDescriptor) :
    StreamDescriptorCompareFn b a = false ↔
      pairLe (stPair a) (stPair b) ∧
        (stPair a = stPair b →
          b.trick_play_factor ≠ 0 ∧
            (a.trick_play_factor = 0 ∨ b.trick_play_factor ≤ a.trick_play_factor)) := by
  unfold StreamDescriptorCompareFn pairLe stPair
  rcases eq_or_ne b.input a.input with h1 | h1
  · rcases eq_or_ne b.stream_selector a.stream_selector with h2 | h2
    · rcases eq_or_ne b.trick_play_factor 0 with h3 | h3
      · simp [h1, h2, h3, Prod.ext_iff]
      · rcases eq_or_ne a.trick_play_factor 0 with h4 | h4
        · simp [h1, h2, h3, h4, Prod.ext_iff]
        · simp [h1, h2, h3, h4, Prod.ext_iff, not_lt]
    · simp [h1, h2, Prod.ext_iff, Ne.symm h2, not_lt]
  · simp [h1, Prod.ext_iff, Ne.symm h1, not_lt]
    exact Ne.le_iff_lt (fun hd => h1 (String.ext hd.symm))

theorem cmp_false_trans {a b c : StreamDescriptor}
    (hab : StreamDescriptorCompareFn b a = false)
    (hbc : StreamDescriptorCompareFn c b = false) :
    StreamDescriptorCompareFn c a = false := by
  rw [cmp_false_iff] at hab hbc ⊢
  obtain ⟨hle1, htp1⟩ := hab
  obtain ⟨hle2, htp2⟩ := hbc
  refine ⟨pairLe_trans hle1 hle2, fun heq => ?_⟩
  have hab' : stPair a = stPair b := pairLe_antisymm hle1 (heq ▸ hle2)
  have hbc' : stPair b = stPair c := hab' ▸ heq
  obtain ⟨hb0, hba⟩ := htp1 hab'
  obtain ⟨hc0, hcb⟩ := htp2 hbc'
  rcases hcb with hcb | hcb
  · exact absurd hcb hb0
  · rcases hba with hba | hba
    · exact ⟨hc0, Or.inl hba⟩
    · exact ⟨hc0, Or.inr (le_trans hcb hba)⟩

/-- A sorted A/V descriptor list is pairwise non-inverted. -/
theorem sortedAV_pairwise {l : List StreamDescriptor} (h : SortedAV l) :
    List.Pairwise (fun x y => StreamDescriptorCompareFn y x = false) l := by
  letI : IsTrans StreamDescriptor (fun x y => StreamDescriptorCompareFn y x = false) :=
    ⟨fun _ _ _ h1 h2 => cmp_false_trans h1 h2⟩
  exact List.chain'_iff_pairwise.mp h

/-- Extract the pairwise relation between an earlier and a later element. -/
theorem pairwise_rel_of_split {α : Type} {R : α → α → Prop}
    {pre mid post : List α} {a b : α}
    (h : List.Pairwise R (pre ++ a :: mid ++ b :: post)) : R a b := by
  exact (List.pairwise_append.mp h).2.2 a
    (List.mem_append_right _ (List.mem_cons_self _ _)) b (List.mem_cons_self _ _)

/-! ## Claim theorems -/

/-- C4: `GetOutputFormat` returns exactly the known-name-table mapping of a
non-empty `output_format`, ignoring `output` and `segment_template`;
otherwise, when formats derived from both the output extension and the
segment-template extension are present and disagree the result is `UNKNOWN`,
otherwise it is whichever derived format is present, and `UNKNOWN` when
neither is. -/
theorem getOutputFormat_spec (fmtName fileName : String → MediaContainerName)
    (d : StreamDescriptor) :
    GetOutputFormat fmtName fileName d =
      if d.output_format ≠ "" then fmtName d.output_format
      else if d.output ≠ "" ∧ d.segment_template ≠ "" ∧
          fileName d.output ≠ fileName d.segment_template then
        MediaContainerName.CONTAINER_UNKNOWN
      else if d.output ≠ "" then fileName d.output
      else if d.segment_template ≠ "" then fileName d.segment_template
      else MediaContainerName.CONTAINER_UNKNOWN := by
  unfold GetOutputFormat
  rcases eq_or_ne d.output_format "" with h0 | h0
  · rcases eq_or_ne d.output "" with h1 | h1 <;>
      rcases eq_or_ne d.segment_template "" with h2 | h2 <;>
      rcases eq_or_ne (fileName d.output) (fileName d.segment_template) with h3 | h3 <;>
      simp [h0, h1, h2, h3]
  · simp [h0]

/-- C7: the default stream label function with the default pixel thresholds
returns `AUDIO` for audio streams; for video streams it buckets the pixel
count `width * height` against `768*576`, `1920*1080` and `4096*2160` into
`SD`, `HD`, `UHD1` and `UHD2`; for any other stream type it returns the
empty string. -/
theorem defaultStreamLabelFunction_spec (attrs : EncryptedStreamAttributes) :
    (attrs.stream_type = StreamType.kAudioStream →
      DefaultStreamLabelFunction (768 * 576) (1920 * 1080) (4096 * 2160) attrs = "AUDIO") ∧
    (attrs.stream_type = StreamType.kVideoStream →
      (attrs.width * attrs.height ≤ 768 * 576 →
        DefaultStreamLabelFunction (768 * 576) (1920 * 1080) (4096 * 2160) attrs = "SD") ∧
      (¬ attrs.width * attrs.height ≤ 768 * 576 →
          attrs.width * attrs.height ≤ 1920 * 1080 →
        DefaultStreamLabelFunction (768 * 576) (1920 * 1080) (4096 * 2160) attrs = "HD") ∧
      (¬ attrs.width * attrs.height ≤ 1920 * 1080 →
          attrs.width * attrs.height ≤ 4096 * 2160 →
        DefaultStreamLabelFunction (768 * 576) (1920 * 1080) (4096 * 2160) attrs = "UHD1") ∧
      (¬ attrs.width * attrs.height ≤ 4096 * 2160 →
        DefaultStreamLabelFunction (768 * 576) (1920 * 1080) (4096 * 2160) attrs = "UHD2")) ∧
    (attrs.stream_type ≠ StreamType.kAudioStream →
      attrs.stream_type ≠ StreamType.kVideoStream →
      DefaultStreamLabelFunction (768 * 576) (1920 * 1080) (4096 * 2160) attrs = "") := by
  refine ⟨fun ha => ?_, fun hv => ?_, fun ha hv => ?_⟩
  · unfold DefaultStreamLabelFunction
    rw [if_pos ha]
  · refine ⟨fun h1 => ?_, fun h1 h2 => ?_, fun h2 h3 => ?_, fun h3 => ?_⟩ <;>
    · unfold DefaultStreamLabelFunction
      dsimp only
      split_ifs <;> first | rfl | linarith | simp_all
  · unfold DefaultStreamLabelFunction
    rw [if_neg ha, if_neg hv]

/-- Witness for C7: a 1920x1080 video stream is labelled `HD`, an audio
stream `AUDIO`. -/
theorem defaultStreamLabelFunction_spec_witness :
    DefaultStreamLabelFunction (768 * 576) (1920 * 1080) (4096 * 2160)
        ⟨StreamType.kVideoStream, 1920, 1080⟩ = "HD" ∧
      DefaultStreamLabelFunction (768 * 576) (1920 * 1080) (4096 * 2160)
        ⟨StreamType.kAudioStream, 0, 0⟩ = "AUDIO" :=
  ⟨((defaultStreamLabelFunction_spec ⟨StreamType.kVideoStream, 1920, 1080⟩).2.1
      rfl).2.1 (by decide) (by decide),
   (defaultStreamLabelFunction_spec ⟨StreamType.kAudioStream, 0, 0⟩).1 rfl⟩

/-- C9: with `dump_stream_info` set and both `output` and `segment_template`
empty, `ValidateStreamDescriptor` accepts any descriptor with a non-empty
input, regardless of the stream selector, the segment template grammar
oracle and the container tables. -/
theorem validateStreamDescriptor_dump_mode
    (fmtName fileName : String → MediaContainerName) (vst : String → Status)
    (stream : StreamDescriptor) (hin : stream.input ≠ "")
    (hout : stream.output = "") (hseg : stream.segment_template = "") :
    ValidateStreamDescriptor fmtName fileName vst true stream = Status.ok := by
  unfold ValidateStreamDescriptor
  simp [hin, hout, hseg]

/-- Witness for C9: a descriptor with only an input, an empty stream
selector, an always-rejecting template oracle and unknown-only container
tables is accepted in dump-only mode. -/
theorem validateStreamDescriptor_dump_mode_witness :
    ValidateStreamDescriptor (fun _ => MediaContainerName.CONTAINER_UNKNOWN)
        (fun _ => MediaContainerName.CONTAINER_UNKNOWN)
        (fun _ => Status.invalid "rejected") true
        { StreamDescriptor.default with input := "in.mp4" } = Status.ok :=
  validateStreamDescriptor_dump_mode _ _ _ _ (by decide) rfl rfl

/-- C10: on two descriptors with equal input, equal stream selector and
trick-play factor 0 on both sides, `StreamDescriptorCompareFn` answers true
in both directions (and on the diagonal), so it is not irreflexive or
asymmetric there and hence not a strict weak ordering on descriptor sets
with duplicate main tracks. -/
theorem streamDescriptorCompareFn_not_asymmetric (a b : StreamDescriptor)
    (hi : a.input = b.input) (hs : a.stream_selector = b.stream_selector)
    (ha : a.trick_play_factor = 0) (hb : b.trick_play_factor = 0) :
    StreamDescriptorCompareFn a b = true ∧ StreamDescriptorCompareFn b a = true ∧
      StreamDescriptorCompareFn a a = true := by
  unfold StreamDescriptorCompareFn
  simp [hi, hs, ha, hb]

/-- Witness for C10: two distinct main-track descriptors for the same input
and selector compare true in both directions. -/
theorem streamDescriptorCompareFn_not_asymmetric_witness :
    StreamDescriptorCompareFn
        { StreamDescriptor.default with
            input := "v.mp4"
            stream_selector := "video" }
        { StreamDescriptor.default with
            input := "v.mp4"
            stream_selector := "video"
            bandwidth := 100 } = true ∧
      StreamDescriptorCompareFn
        { StreamDescriptor.default with
            input := "v.mp4"
            stream_selector := "video"
            bandwidth := 100 }
        { StreamDescriptor.default with
            input := "v.mp4"
            stream_selector := "video" } = true ∧
      StreamDescriptorCompareFn
        { StreamDescriptor.default with
            input := "v.mp4"
            stream_selector := "video" }
        { StreamDescriptor.default with
            input := "v.mp4"
            stream_selector := "video" } = true :=
  streamDescriptorCompareFn_not_asymmetric _ _ rfl rfl rfl rfl

/-- C3: the A/V comparator orders by input ascending, then stream selector
ascending; among descriptors with equal `(input, stream_selector)` a factor-0
descriptor compares less than any non-zero one and, among two non-zero
factors, the higher factor compares less; consequently in a sorted list any
same-pair descriptor occurring after another is a trick-play variant with a
factor no larger than a preceding trick-play factor (main track first,
descending factors). -/
theorem streamDescriptorCompareFn_ordering :
    (∀ a b : StreamDescriptor,
      (a.input ≠ b.input →
        (StreamDescriptorCompareFn a b = true ↔ a.input < b.input)) ∧
      (a.input = b.input → a.stream_selector ≠ b.stream_selector →
        (StreamDescriptorCompareFn a b = true ↔
          a.stream_selector < b.stream_selector)) ∧
      (a.input = b.input → a.stream_selector = b.stream_selector →
        a.trick_play_factor = 0 → b.trick_play_factor ≠ 0 →
        StreamDescriptorCompareFn a b = true ∧
          StreamDescriptorCompareFn b a = false) ∧
      (a.input = b.input → a.stream_selector = b.stream_selector →
        a.trick_play_factor ≠ 0 → b.trick_play_factor ≠ 0 →
        (StreamDescriptorCompareFn a b = true ↔
          b.trick_play_factor < a.trick_play_factor))) ∧
    (∀ (pre mid post : List StreamDescriptor) (a b : StreamDescriptor),
      SortedAV (pre ++ a :: mid ++ b :: post) → stPair a = stPair b →
      b.trick_play_factor ≠ 0 ∧
        (a.trick_play_factor ≠ 0 →
          b.trick_play_factor ≤ a.trick_play_factor)) := by
  constructor
  · intro a b
    refine ⟨fun h1 => ?_, fun h1 h2 => ?_, fun h1 h2 h3 h4 => ?_, fun h1 h2 h3 h4 => ?_⟩
    · unfold StreamDescriptorCompareFn
      simp [h1]
    · unfold StreamDescriptorCompareFn
      simp [h1, h2]
    · unfold StreamDescriptorCompareFn
      simp [h1, h2, h3, h4]
    · unfold StreamDescriptorCompareFn
      simp [h1, h2, h3, h4]
  · intro pre mid post a b hsort hpair
    have hrel : StreamDescriptorCompareFn b a = false :=
      pairwise_rel_of_split (R := fun x y => StreamDescriptorCompareFn y x = false)
        (sortedAV_pairwise hsort)
    have := (cmp_false_iff a b).mp hrel
    obtain ⟨hb0, hba⟩ := this.2 hpair
    exact ⟨hb0, fun ha0 => by rcases hba with hba | hba
                              · exact absurd hba ha0
                              · exact hba⟩

/-- Witness for C3: for the descriptors of the trick-play scenario the main
track compares less than the factor-4 variant, the factor-4 variant less
than the factor-2 one, and in a concrete sorted list the later same-pair
entry has the smaller non-zero factor. -/
theorem streamDescriptorCompareFn_ordering_witness :
    (StreamDescriptorCompareFn
        { StreamDescriptor.default with
            input := "v.mp4"
            stream_selector := "video"
            output := "m.mp4" }
        { StreamDescriptor.default with
            input := "v.mp4"
            stream_selector := "video"
            output := "t4.mp4"
            trick_play_factor := 4 } = true ∧
      StreamDescriptorCompareFn
        { StreamDescriptor.default with
            input := "v.mp4"
            stream_selector := "video"
            output := "t4.mp4"
            trick_play_factor := 4 }
        { StreamDescriptor.default with
            input := "v.mp4"
            stream_selector := "video"
            output := "m.mp4" } = false) ∧
      (({ StreamDescriptor.default with
            input := "v.mp4"
            stream_selector := "video"
            output := "t2.mp4"
            trick_play_factor := 2 } : StreamDescriptor).trick_play_factor ≠ 0 ∧
        (({ StreamDescriptor.default with
             input := "v.mp4"
             stream_selector := "video"
             output := "t4.mp4"
             trick_play_factor := 4 } : StreamDescriptor).trick_play_factor ≠ 0 →
          ({ StreamDescriptor.default with
              input := "v.mp4"
              stream_selector := "video"
              output := "t2.mp4"
              trick_play_factor := 2 } : StreamDescriptor).trick_play_factor ≤
            ({ StreamDescriptor.default with
                input := "v.mp4"
                stream_selector := "video"
                output := "t4.mp4"
                trick_play_factor := 4 } : StreamDescriptor).trick_play_factor)) :=
  ⟨(streamDescriptorCompareFn_ordering.1 _ _).2.2.1 rfl rfl rfl (by decide),
   streamDescriptorCompareFn_ordering.2
     [{ StreamDescriptor.default with
          input := "v.mp4"
          stream_selector := "video"
          output := "m.mp4" }] [] []
     { StreamDescriptor.default with
         input := "v.mp4"
         stream_selector := "video"
         output := "t4.mp4"
         trick_play_factor := 4 }
     { StreamDescriptor.default with
         input := "v.mp4"
         stream_selector := "video"
         output := "t2.mp4"
         trick_play_factor := 2 }
     (by
       simp only [SortedAV, List.singleton_append, List.cons_append, List.nil_append,
         List.chain'_cons, List.chain'_singleton, and_true]
       constructor <;> decide)
     (by decide)⟩

@[simp] theorem Status.isOk_ok : Status.ok.isOk = true := rfl

@[simp] theorem Status.isOk_invalid (m : String) : (Status.invalid m).isOk = false := rfl

@[simp] theorem Status.error_code_invalid (m : String) :
    (Status.invalid m).error_code = ErrorCode.INVALID_ARGUMENT := rfl

@[simp] theorem Status.error_code_ok : Status.ok.error_code = ErrorCode.OK := rfl

/-- If the template grammar oracle only ever answers OK or
INVALID_ARGUMENT, a failing answer carries INVALID_ARGUMENT. -/
theorem error_code_of_not_isOk {vst : String → Status}
    (hvst : ∀ s, (vst s).error_code = ErrorCode.OK ∨
      (vst s).error_code = ErrorCode.INVALID_ARGUMENT)
    {s : String} (h : ¬ (vst s).isOk = true) :
    (vst s).error_code = ErrorCode.INVALID_ARGUMENT := by
  rcases hvst s with h1 | h1
  · exact absurd (by simp [Status.isOk, h1]) h
  · exact h1

/-- C2 (amended): outside dump-only mode (dump flag with both outputs
empty), and with the external segment-template checker failing only with
INVALID_ARGUMENT, a descriptor resolving to MPEG-2 TS is rejected with
INVALID_ARGUMENT whenever its segment template is empty, and whenever its
output is non-empty; the TS-specific checks pass (the validator returns OK)
when the segment template is set and valid, the output empty and the earlier
generic checks satisfied. -/
theorem validateStreamDescriptor_mp2t (fmtName fileName : String → MediaContainerName)
    (vst : String → Status) (dump : Bool) (stream : StreamDescriptor)
    (hvst : ∀ s, (vst s).error_code = ErrorCode.OK ∨
      (vst s).error_code = ErrorCode.INVALID_ARGUMENT)
    (hts : GetOutputFormat fmtName fileName stream =
      MediaContainerName.CONTAINER_MPEG2TS)
    (hnd : ¬ (dump = true ∧ stream.output = "" ∧ stream.segment_template = "")) :
    (stream.segment_template = "" →
      (ValidateStreamDescriptor fmtName fileName vst dump stream).error_code =
        ErrorCode.INVALID_ARGUMENT) ∧
    (stream.output ≠ "" →
      (ValidateStreamDescriptor fmtName fileName vst dump stream).error_code =
        ErrorCode.INVALID_ARGUMENT) ∧
    (stream.input ≠ "" → stream.stream_selector ≠ "" →
      stream.segment_template ≠ "" → stream.output = "" →
      (vst stream.segment_template).isOk = true →
      ValidateStreamDescriptor fmtName fileName vst dump stream = Status.ok) := by
  have hc : ¬ Char.ofNat 36 ∈ ("" : String).data := by decide
  have key1 : stream.segment_template = "" →
      (ValidateStreamDescriptor fmtName fileName vst dump stream).error_code =
        ErrorCode.INVALID_ARGUMENT := by
    intro hseg
    unfold ValidateStreamDescriptor
    by_cases hin : stream.input = ""
    · simp [hin, Status.invalid]
    · by_cases hout : stream.output = ""
      · have hdump : dump = false := by
          cases dump
          · rfl
          · exact absurd ⟨rfl, hout, hseg⟩ hnd
        simp [hin, hout, hseg, hdump, Status.invalid]
      · by_cases hsel : stream.stream_selector = ""
        · simp [hin, hout, hseg, hsel, Status.invalid]
        · by_cases hdol : Char.ofNat 36 ∈ stream.output.data
          · by_cases hvo : (vst stream.output).isOk
            · simp [hin, hout, hseg, hsel, hdol, hvo, hts, Status.invalid]
            · simp [hin, hout, hseg, hsel, hdol, hvo]
              exact error_code_of_not_isOk hvst hvo
          · simp [hin, hout, hseg, hsel, hdol, hts, Status.invalid]
  refine ⟨key1, fun hout => ?_, fun hin hsel hseg hout hvseg => ?_⟩
  · by_cases hseg : stream.segment_template = ""
    · exact key1 hseg
    · unfold ValidateStreamDescriptor
      by_cases hin : stream.input = ""
      · simp [hin, Status.invalid]
      · by_cases hsel : stream.stream_selector = ""
        · simp [hin, hout, hseg, hsel, Status.invalid]
        · by_cases hv1 : (vst stream.segment_template).isOk
          · by_cases hdol : Char.ofNat 36 ∈ stream.output.data
            · by_cases hv2 : (vst stream.output).isOk
              · simp [hin, hout, hseg, hsel, hv1, hdol, hv2, hts, Status.invalid]
              · simp [hin, hout, hseg, hsel, hv1, hdol, hv2]
                exact error_code_of_not_isOk hvst hv2
            · simp [hin, hout, hseg, hsel, hv1, hdol, hts, Status.invalid]
          · simp [hin, hout, hseg, hsel, hv1]
            exact error_code_of_not_isOk hvst hv1
  · unfold ValidateStreamDescriptor
    simp [hin, hsel, hseg, hout, hvseg, hts, hc, Status.ok]

/-- C2 counterexample: in dump-only mode a descriptor whose explicit
`mp2t` output format resolves to MPEG-2 TS and whose segment template is
empty is accepted with OK rather than rejected with INVALID_ARGUMENT. -/
theorem validateStreamDescriptor_mp2t_cx :
    GetOutputFormat cxFmtName cxFileNameTs cxDumpTs =
        MediaContainerName.CONTAINER_MPEG2TS ∧
      cxDumpTs.segment_template = "" ∧
      ValidateStreamDescriptor cxFmtName cxFileNameTs (fun _ => Status.ok) true
          cxDumpTs = Status.ok := by
  refine ⟨by decide, rfl, by decide⟩

/-- Witness for C2: a TS descriptor with a segment template, no output and
an accepting grammar oracle passes validation. -/
theorem validateStreamDescriptor_mp2t_witness :
    ValidateStreamDescriptor cxFmtName cxFileNameTs (fun _ => Status.ok) false
      cxLiveTs = Status.ok :=
  (validateStreamDescriptor_mp2t cxFmtName cxFileNameTs (fun _ => Status.ok) false
      cxLiveTs (fun _ => Or.inl rfl) (by decide) (by simp)).2.2
    (by decide) (by decide) (by decide) rfl rfl

/-- C5: for a descriptor with `skip_encryption` false and a key source
present, the handler is built, and its protection scheme is Apple
Sample-AES exactly when the resolved output format is MPEG-2 TS, AAC, AC3
or EAC3, regardless of the requested scheme; for every other output format
the requested scheme is kept. -/
theorem createEncryptionHandler_scheme (fmtName fileName : String → MediaContainerName)
    (packaging_params : PackagingParams) (stream : StreamDescriptor)
    (hskip : stream.skip_encryption = false) :
    (CreateEncryptionHandler fmtName fileName packaging_params stream true).map
        (fun h => h.encryption_params.protection_scheme) =
      some
        (if GetOutputFormat fmtName fileName stream =
              MediaContainerName.CONTAINER_MPEG2TS ∨
            GetOutputFormat fmtName fileName stream =
              MediaContainerName.CONTAINER_AAC ∨
            GetOutputFormat fmtName fileName stream =
              MediaContainerName.CONTAINER_AC3 ∨
            GetOutputFormat fmtName fileName stream =
              MediaContainerName.CONTAINER_EAC3 then
          kAppleSampleAesProtectionScheme
        else packaging_params.encryption_params.protection_scheme) := by
  unfold CreateEncryptionHandler
  simp only [hskip]
  split_ifs <;> simp_all

/-- Witness for C5: with an explicit `mp2t` output format and requested
scheme 1, the built handler carries Apple Sample-AES. -/
theorem createEncryptionHandler_scheme_witness :
    (CreateEncryptionHandler cxFmtName cxFileNameTs PackagingParams.default cxLiveTs
        true).map (fun h => h.encryption_params.protection_scheme) =
      some kAppleSampleAesProtectionScheme :=
  (createEncryptionHandler_scheme cxFmtName cxFileNameTs PackagingParams.default
      cxLiveTs rfl).trans (by decide)

/-- C6 (amended): a text stream descriptor whose input container is not
WebVTT makes the text pipeline builder fail with INVALID_ARGUMENT ("Text
output format is not support for ..."), and the builder loop propagates
exactly that status. -/
theorem createTextJobs_non_webvtt (o : TextOracles) (hls mpd omi : Bool)
    (stream : StreamDescriptor) (rest : List StreamDescriptor)
    (_hsel : stream.stream_selector = "text")
    (hbad : o.fileName stream.input ≠ MediaContainerName.CONTAINER_WEBVTT) :
    (CreateTextJobStream o hls mpd omi stream).error_code =
        ErrorCode.INVALID_ARGUMENT ∧
      CreateTextJobs o hls mpd omi (stream :: rest) =
        CreateTextJobStream o hls mpd omi stream := by
  have h1 : CreateTextJobStream o hls mpd omi stream =
      Status.invalid ("Text output format is not support for " ++ stream.input) := by
    unfold CreateTextJobStream
    simp [hbad]
  refine ⟨by simp [h1], ?_⟩
  simp [CreateTextJobs, h1]

/-- C6 counterexample: an MP4-input text descriptor is rejected by the text
pipeline builder with INVALID_ARGUMENT, which is not the claimed
UNIMPLEMENTED. -/
theorem createTextJobs_non_webvtt_cx :
    cxTextOracles.fileName cxTextStream.input ≠
        MediaContainerName.CONTAINER_WEBVTT ∧
      cxTextStream.stream_selector = "text" ∧
      (CreateTextJobs cxTextOracles false false false [cxTextStream]).error_code =
        ErrorCode.INVALID_ARGUMENT ∧
      (CreateTextJobs cxTextOracles false false false [cxTextStream]).error_code ≠
        ErrorCode.UNIMPLEMENTED := by
  refine ⟨by decide, rfl, by decide, by decide⟩

/-- Witness for C6: the amended theorem applied to the MP4-input text
descriptor. -/
theorem createTextJobs_non_webvtt_witness :
    (CreateTextJobStream cxTextOracles false false false cxTextStream).error_code =
        ErrorCode.INVALID_ARGUMENT ∧
      CreateTextJobs cxTextOracles false false false [cxTextStream] =
        CreateTextJobStream cxTextOracles false false false cxTextStream :=
  createTextJobs_non_webvtt cxTextOracles false false false cxTextStream [] rfl
    (by decide)

/-- A `normalizeStreams` error status is never OK (it is always the
unknown-language INVALID_ARGUMENT rejection, possibly propagated). -/
theorem normalizeStreams_error_isOk (o : InitOracles) (bcp : BufferCallbackParams) :
    ∀ (streams : List StreamDescriptor) (e : Status),
      normalizeStreams o bcp streams = Except.error e → e.isOk = false := by
  intro streams
  induction streams with
  | nil =>
      intro e h
      simp [normalizeStreams] at h
  | cons d rest ih =>
      intro e h
      unfold normalizeStreams at h
      dsimp only at h
      split_ifs at h with hl hund
      · injection h with h
        subst h
        simp
      · split at h
        · injection h with h
          subst h
          rename_i heq
          exact ih _ heq
        · exact absurd h (by simp)
      · split at h
        · injection h with h
          subst h
          rename_i heq
          exact ih _ heq
        · exact absurd h (by simp)

/-- C8: a second `Initialize` on the same packager fails with
INVALID_ARGUMENT and leaves the state untouched; any failing `Initialize`
leaves the packager exactly as before the call (the internal state block is
committed only when every step, including `CreateAllJobs`, succeeds), and a
successful one commits an internal state block. -/
theorem packager_initialize_atomic (o : InitOracles) (p : Packager)
    (packaging_params : PackagingParams) (streams : List StreamDescriptor) :
    (p.internal.isSome = true →
      Packager.Initialize o p packaging_params streams =
        (Status.invalid "Already initialized.", p)) ∧
    ((Packager.Initialize o p packaging_params streams).1.isOk = false →
      (Packager.Initialize o p packaging_params streams).2 = p) ∧
    ((Packager.Initialize o p packaging_params streams).1.isOk = true →
      (Packager.Initialize o p packaging_params streams).1 = Status.ok ∧
        (Packager.Initialize o p packaging_params streams).2.internal.isSome = true) := by
  unfold Packager.Initialize
  dsimp only
  rcases hnorm : normalizeStreams o packaging_params.buffer_callback_params streams
      with e | sj <;> dsimp only
  · have he := normalizeStreams_error_isOk o packaging_params.buffer_callback_params
      streams e hnorm
    split_ifs <;> simp_all
  · by_cases h5 : (o.createAllJobsStatus sj).isOk = true <;> split_ifs <;> simp_all

/-- Witness for C8: `Initialize` on an already-initialized packager returns
the already-initialized INVALID_ARGUMENT status and leaves the state
untouched. -/
theorem packager_initialize_atomic_witness :
    Packager.Initialize cxInitOracles cxPackager PackagingParams.default [] =
      (Status.invalid "Already initialized.", cxPackager) :=
  (packager_initialize_atomic cxInitOracles cxPackager PackagingParams.default []).1 rfl

/-- Invariant step for a new `(input, selector)` pair: creating a fresh
replicator and wiring the current tail to it preserves the pass-2
invariant. -/
theorem avInv_step_new (sync : Bool) (s : AVState) (d : StreamDescriptor)
    (hinv : AVInv s)
    (hmono : s.reps = [] ∨ pairLe (s.prevInput, s.prevSelector) (stPair d))
    (hns : stPair d ≠ (s.prevInput, s.prevSelector)) :
    AVInv ⟨some (s.nextId, d.input, d.stream_selector), d.input, d.stream_selector,
      s.nextId + 1, s.reps ++ [(s.nextId, d.input, d.stream_selector)],
      s.tails ++ [(d, some (s.nextId, d.input, d.stream_selector))],
      s.bindings ++ [(d.input, d.stream_selector, sync)]⟩ := by
  obtain ⟨h1, h2, h3, _⟩ := hinv
  have hold : ∀ r ∈ s.reps, pairLe r.2 (d.input, d.stream_selector) := by
    intro r hr
    rcases hmono with hemp | hle
    · rw [hemp] at hr
      exact absurd hr (List.not_mem_nil r)
    · exact pairLe_trans (h1 r hr) hle
  refine ⟨?_, ?_, ?_, ?_⟩
  · intro r hr
    rcases List.mem_append.mp hr with hr | hr
    · exact hold r hr
    · rw [List.mem_singleton.mp hr]
      exact pairLe_refl _
  · rw [List.map_append]
    refine List.Nodup.append h2 (List.nodup_singleton _) ?_
    intro q hq hq2
    rw [List.map_singleton, List.mem_singleton] at hq2
    subst hq2
    obtain ⟨r, hr, hrq⟩ := List.mem_map.mp hq
    rcases hmono with hemp | hle
    · rw [hemp] at hr
      exact absurd hr (List.not_mem_nil r)
    · have h1r := h1 r hr
      rw [hrq] at h1r
      exact hns (pairLe_antisymm hle h1r).symm
  · intro t ht
    rcases List.mem_append.mp ht with ht | ht
    · obtain ⟨id, hid, hmem⟩ := h3 t ht
      exact ⟨id, hid, List.mem_append_left _ hmem⟩
    · rw [List.mem_singleton.mp ht]
      exact ⟨s.nextId, rfl, List.mem_append_right _ (List.mem_singleton.mpr rfl)⟩
  · exact Or.inr ⟨(s.nextId, d.input, d.stream_selector), rfl,
      List.mem_append_right _ (List.mem_singleton.mpr rfl), rfl⟩

/-- Invariant step for a repeated `(input, selector)` pair: wiring the tail
to the already-current replicator preserves the pass-2 invariant. -/
theorem avInv_step_same (s : AVState) (d : StreamDescriptor)
    (r : Nat × String × String) (hinv : AVInv s) (hrmem : r ∈ s.reps)
    (hrpair : r.2 = (s.prevInput, s.prevSelector))
    (heqi : d.input = s.prevInput) (heqs : s.prevSelector = d.stream_selector) :
    AVInv ⟨some r, d.input, d.stream_selector, s.nextId, s.reps,
      s.tails ++ [(d, some r)], s.bindings⟩ := by
  obtain ⟨h1, h2, h3, _⟩ := hinv
  have hpair : r.2 = (d.input, d.stream_selector) := by rw [hrpair, heqi, heqs]
  have hr' : r = (r.1, d.input, d.stream_selector) := Prod.ext rfl hpair
  refine ⟨?_, h2, ?_, ?_⟩
  · intro q hq
    have hle := h1 q hq
    rwa [← heqi, heqs] at hle
  · intro t ht
    rcases List.mem_append.mp ht with ht | ht
    · exact h3 t ht
    · rw [List.mem_singleton.mp ht]
      exact ⟨r.1, congrArg some hr', hr' ▸ hrmem⟩
  · exact Or.inr ⟨r, rfl, hrmem, hpair⟩

/-- The pass-2 fold of `CreateAudioVideoJobs` preserves the invariant over a
pairwise-sorted descriptor list whose descriptors all have non-empty input
and at least one of output and segment template, and it wires exactly one
tail per descriptor, in order. -/
theorem avPass2_invariant (o : AVOracles) (sync : Bool) :
    ∀ (l : List StreamDescriptor) (s : AVState),
      AVInv s →
      (∀ d ∈ l, d.input ≠ "" ∧ ¬ (d.output = "" ∧ d.segment_template = "")) →
      (s.reps = [] ∨ ∀ d ∈ l, pairLe (s.prevInput, s.prevSelector) (stPair d)) →
      List.Pairwise (fun a b => StreamDescriptorCompareFn b a = false) l →
      (avPass2 o sync s l).1 = Status.ok →
      AVInv (avPass2 o sync s l).2 ∧
        (avPass2 o sync s l).2.tails.map Prod.fst = s.tails.map Prod.fst ++ l
  | [], s, hinv, _, _, _, _ => by
      simp only [avPass2]
      exact ⟨hinv, by simp⟩
  | d :: rest, s, hinv, hf, hmono, hpw, hok => by
      obtain ⟨hdin, hdout⟩ := hf d (List.mem_cons_self d rest)
      have hfrest : ∀ x ∈ rest, x.input ≠ "" ∧
          ¬ (x.output = "" ∧ x.segment_template = "") :=
        fun x hx => hf x (List.mem_cons_of_mem d hx)
      have hpwrest := (List.pairwise_cons.mp hpw).2
      have hhead := (List.pairwise_cons.mp hpw).1
      have hmorest : ∀ x ∈ rest, pairLe (stPair d) (stPair x) :=
        fun x hx => ((cmp_false_iff d x).mp (hhead x hx)).1
      simp only [avPass2] at hok ⊢
      rw [if_neg hdout] at hok ⊢
      by_cases hns : d.input ≠ s.prevInput ∨ s.prevSelector ≠ d.stream_selector
      · rw [if_pos hns] at hok ⊢
        by_cases hm : o.muxerOk (GetOutputFormat o.fmtName o.fileName d) d = true
        · rw [if_pos hm] at hok ⊢
          have hns' : stPair d ≠ (s.prevInput, s.prevSelector) := by
            intro he
            rcases hns with h | h
            · exact h (congrArg Prod.fst he)
            · exact h (congrArg (fun q => Prod.snd q) he).symm
          have hmono' : s.reps = [] ∨
              pairLe (s.prevInput, s.prevSelector) (stPair d) := by
            rcases hmono with h | h
            · exact Or.inl h
            · exact Or.inr (h d (List.mem_cons_self d rest))
          have hinv' := avInv_step_new sync s d hinv hmono' hns'
          have hres := avPass2_invariant o sync rest _ hinv' hfrest
            (Or.inr hmorest) hpwrest hok
          refine ⟨hres.1, ?_⟩
          rw [hres.2]
          simp
        · rw [if_neg hm] at hok
          exact absurd hok (by simp [Status.invalid, Status.ok])
      · rw [if_neg hns] at hok ⊢
        push_neg at hns
        obtain ⟨heqi, heqs⟩ := hns
        rcases hinv.2.2.2 with ⟨_, _, _, hpi, _⟩ | ⟨r, hrep, hrmem, hrpair⟩
        · exact absurd (heqi.trans hpi) hdin
        · by_cases hm : o.muxerOk (GetOutputFormat o.fmtName o.fileName d) d = true
          · rw [if_pos hm] at hok ⊢
            dsimp only at hok ⊢
            rw [hrep] at hok ⊢
            have hinv' := avInv_step_same s d r hinv hrmem hrpair heqi heqs
            have hres := avPass2_invariant o sync rest _ hinv' hfrest
              (Or.inr hmorest) hpwrest hok
            refine ⟨hres.1, ?_⟩
            rw [hres.2]
            simp
          · rw [if_neg hm] at hok
            exact absurd hok (by simp [Status.invalid, Status.ok])

/-- In a duplicate-free list, the sublist of elements equal to a present
element has length exactly one. -/
theorem length_filter_eq_one_of_nodup {α : Type} [DecidableEq α] :
    ∀ {l : List α}, l.Nodup → ∀ {a : α}, a ∈ l →
      (l.filter (fun x => x = a)).length = 1 := by
  intro l
  induction l with
  | nil =>
      intro _ a ha
      exact absurd ha (List.not_mem_nil a)
  | cons x xs ih =>
      intro h a ha
      rw [List.filter_cons]
      rcases List.mem_cons.mp ha with rfl | hmem
      · have hnot : a ∉ xs := (List.nodup_cons.mp h).1
        have hnil : xs.filter (fun y => y = a) = [] :=
          List.filter_eq_nil_iff.mpr (fun b hb => by
            simp only [decide_eq_true_eq]
            intro hbe
            exact hnot (hbe ▸ hb))
        simp [hnil]
      · have hxa : ¬ (x = a) := by
          intro hxa
          exact (List.nodup_cons.mp h).1 (by rw [hxa]; exact hmem)
        rw [if_neg (by simp [hxa])]
        exact ih (List.nodup_cons.mp h).2 hmem

/-- C1 (amended): for every sorted A/V descriptor list whose descriptors all
have non-empty input and non-empty output or segment template, when
`CreateAudioVideoJobs` succeeds the built graph wires exactly one muxer
tail per descriptor in order, every tail hangs off a created replicator
whose pair is the descriptor's own `(input, stream_selector)`, and exactly
one replicator exists per pair — so all descriptors sharing a pair fan out
from the same replicator. -/
theorem createAudioVideoJobs_replicators (o : AVOracles) (pp : PackagingParams)
    (sync : Bool) (streams : List StreamDescriptor)
    (hsorted : SortedAV streams)
    (hfields : ∀ d ∈ streams, d.input ≠ "" ∧
      ¬ (d.output = "" ∧ d.segment_template = ""))
    (hok : (CreateAudioVideoJobs o pp sync streams).1 = Status.ok) :
    ((CreateAudioVideoJobs o pp sync streams).2.2.tails.map Prod.fst = streams) ∧
    (∀ t ∈ (CreateAudioVideoJobs o pp sync streams).2.2.tails,
      ∃ id, t.2 = some (id, t.1.input, t.1.stream_selector) ∧
        (id, t.1.input, t.1.stream_selector) ∈
          (CreateAudioVideoJobs o pp sync streams).2.2.reps) ∧
    (∀ d ∈ streams,
      (((CreateAudioVideoJobs o pp sync streams).2.2.reps.map Prod.snd).filter
        (fun q => q = stPair d)).length = 1) := by
  unfold CreateAudioVideoJobs at hok ⊢
  dsimp only at hok ⊢
  by_cases hp1 : ¬ (avPass1 o pp streams []).1.isOk = true
  · rw [if_pos hp1] at hok
    dsimp only at hok
    exact absurd (by rw [hok]; rfl :
      (avPass1 o pp streams []).1.isOk = true) hp1
  · rw [if_neg hp1] at hok ⊢
    dsimp only at hok ⊢
    have hinv0 : AVInv avInit := by
      refine ⟨?_, ?_, ?_, Or.inl ⟨rfl, rfl, rfl, rfl, rfl⟩⟩ <;>
        simp [avInit]
    have hres := avPass2_invariant o sync streams avInit hinv0 hfields
      (Or.inl rfl) (sortedAV_pairwise hsorted) hok
    refine ⟨?_, hres.1.2.2.1, ?_⟩
    · rw [hres.2]
      simp [avInit]
    · intro d hd
      have hdmem : d ∈ (avPass2 o sync avInit streams).2.tails.map Prod.fst := by
        rw [hres.2]
        simpa [avInit] using hd
      obtain ⟨t, ht, htd⟩ := List.mem_map.mp hdmem
      obtain ⟨id, _, hmem⟩ := hres.1.2.2.1 t ht
      have hpmem : stPair d ∈ (avPass2 o sync avInit streams).2.reps.map Prod.snd := by
        have := List.mem_map_of_mem Prod.snd hmem
        rw [htd] at this
        exact this
      exact length_filter_eq_one_of_nodup hres.1.2.1 hpmem

/-- C1 counterexample: in dump mode a no-output main-track descriptor
followed by a trick-play descriptor with output for the same
`(input, selector)` pair forms a sorted list on which `CreateAudioVideoJobs`
succeeds, yet the graph contains no replicator for the pair and the
output's muxer tail hangs off a null replicator. -/
theorem createAudioVideoJobs_replicators_cx :
    SortedAV [cxMainNoOutput, cxTrickWithOutput] ∧
      ¬ (cxTrickWithOutput.output = "" ∧ cxTrickWithOutput.segment_template = "") ∧
      (CreateAudioVideoJobs cxAVOracles PackagingParams.default false
          [cxMainNoOutput, cxTrickWithOutput]).1 = Status.ok ∧
      (((CreateAudioVideoJobs cxAVOracles PackagingParams.default false
          [cxMainNoOutput, cxTrickWithOutput]).2.2.reps.map Prod.snd).filter
          (fun q => q = stPair cxTrickWithOutput)).length = 0 ∧
      (CreateAudioVideoJobs cxAVOracles PackagingParams.default false
          [cxMainNoOutput, cxTrickWithOutput]).2.2.tails =
        [(cxTrickWithOutput, none)] := by
  refine ⟨?_, by decide, by decide, by decide, by decide⟩
  simp only [SortedAV, List.chain'_cons, List.chain'_singleton, and_true]
  decide

/-- Witness for C1: on the sorted two-descriptor trick-play scenario with
outputs present, exactly one replicator exists for the shared pair. -/
theorem createAudioVideoJobs_replicators_witness :
    (((CreateAudioVideoJobs cxAVOracles PackagingParams.default false
        [cxMainOut, cxTrick4Out]).2.2.reps.map Prod.snd).filter
      (fun q => q = stPair cxMainOut)).length = 1 :=
  (createAudioVideoJobs_replicators cxAVOracles PackagingParams.default false
      [cxMainOut, cxTrick4Out]
      (by
        simp only [SortedAV, List.chain'_cons, List.chain'_singleton, and_true]
        decide)
      (by decide) (by decide)).2.2 cxMainOut (by decide)
